import Mathlib

/-!
Verification development for the OncoStaging repository.

The TypeScript sources are shallowly embedded as Lean definitions:
JavaScript numbers that carry measurements are modelled as rationals,
lymph-node counts as naturals, strings as Lean strings (character lists),
and fallible operations as `Except String`.  Definition names follow the
source (`determineTNMStage`, `stageBreastCancer`, `extractFeatures`, ...).
-/

/-- JavaScript whitespace characters (the `\s` character class), restricted
to the code points that occur in the application's ASCII text handling. -/
def isJsSpace (c : Char) : Bool :=
  c = ' ' || c = '\t' || c = '\n' || c = '\r' || c = '\x0b' || c = '\x0c' ||
  c = '\u00A0' || c = '\u2028' || c = '\u2029' || c = '\uFEFF'

/-- JavaScript word characters (the `\w` character class). -/
def isWordChar (c : Char) : Bool :=
  ('a' ≤ c && c ≤ 'z') || ('A' ≤ c && c ≤ 'Z') || ('0' ≤ c && c ≤ '9') || c = '_'

/-- ASCII decimal digits (the `\d` character class). -/
def isDigitChar (c : Char) : Bool :=
  '0' ≤ c && c ≤ '9'

/-- `String.prototype.toLowerCase()` on the ASCII texts the app handles. -/
def lowerStr (s : String) : String :=
  String.mk (s.toList.map Char.toLower)

/-- Match a literal character sequence at the head of `s`; on success return
the remaining suffix. -/
def litM : List Char → List Char → Option (List Char)
  | [], s => some s
  | _, [] => none
  | p :: ps, c :: cs => if c = p then litM ps cs else none

/-- `String.prototype.includes`: does `p` occur as a contiguous
subsequence of `s`? -/
def occursIn (p : List Char) : List Char → Bool
  | [] => (litM p []).isSome
  | c :: cs => (litM p (c :: cs)).isSome || occursIn p cs

/-- `s.includes(p)` on strings. -/
def containsStr (s p : String) : Bool :=
  occursIn p.toList s.toList

/-- `s.startsWith(p)` on strings. -/
def strStarts (p s : String) : Bool :=
  (litM p.toList s.toList).isSome

/-- `String.prototype.trim()`. -/
def trimStr (s : String) : String :=
  String.mk (((s.toList.dropWhile isJsSpace).reverse.dropWhile isJsSpace).reverse)

/-! ## Medical data model

`MedicalFeatures` and `TNMStaging` mirror the record types used by
`src/oncostaging-app/src/lib` (tumor size in centimetres as a rational,
lymph-node count as a natural number, flags as booleans). -/

structure ConfidenceScores where
  cancer_type : ℚ
  tumor_size : ℚ
  lymph_nodes : ℚ
  metastasis : ℚ
  liver_invasion : ℚ
  tumor_depth : ℚ
deriving Repr, DecidableEq

structure MedicalFeatures where
  cancer_type : String
  tumor_size_cm : ℚ
  lymph_nodes_involved : ℕ
  distant_metastasis : Bool
  liver_invasion : Bool
  tumor_depth : String
  confidence_scores : ConfidenceScores
  extracted_values : Unit := ()
deriving Repr, DecidableEq

structure TNMStaging where
  T : String
  N : String
  M : String
  stage : String
  description : String
deriving Repr, DecidableEq

/-! ## Staging engine (`determineTNMStage` and the per-cancer stagers) -/

/-- Stage-description table for gallbladder cancer. -/
def getGallbladderStageDescription (stage : String) : String :=
  if stage = "Stage I" then "Early stage cancer confined to gallbladder wall"
  else if stage = "Stage II" then "Tumor has reached outer layer of gallbladder"
  else if stage = "Stage IIIA" then "Tumor has spread to nearby lymph nodes"
  else if stage = "Stage IIIB" then "Tumor has invaded liver or nearby organs"
  else if stage = "Stage IVA" then "Tumor has spread to major blood vessels or multiple organs"
  else if stage = "Stage IVB" then "Advanced cancer with distant metastasis"
  else "Staging information not available"

/-- Stage-description table for esophageal cancer. -/
def getEsophagealStageDescription (stage : String) : String :=
  if stage = "Stage I" then "Early stage confined to inner layer of esophagus"
  else if stage = "Stage II" then "Tumor has reached deeper layers of esophagus"
  else if stage = "Stage III" then "Spread to nearby lymph nodes"
  else if stage = "Stage IVA" then "Invaded nearby organs"
  else if stage = "Stage IVB" then "Metastasis to distant organs"
  else stage

/-- Stage-description table for breast cancer. -/
def getBreastStageDescription (stage : String) : String :=
  if stage = "Stage I" then "Early stage, small tumor, no lymph node spread"
  else if stage = "Stage II" then "Moderate-sized tumor or limited lymph node involvement"
  else if stage = "Stage III" then "Large tumor or extensive lymph node involvement"
  else if stage = "Stage IV" then "Metastasis to distant organs"
  else "Staging information not available"

/-- Stage-description table for lung cancer. -/
def getLungStageDescription (stage : String) : String :=
  if stage = "Stage I" then "Early stage confined to lung only"
  else if stage = "Stage II" then "Large tumor or spread to nearby lymph nodes"
  else if stage = "Stage III" then "Locally advanced, spread within chest"
  else if stage = "Stage IV" then "Metastasis to distant organs"
  else "Staging information not available"

/-- Stage-description table for colorectal cancer. -/
def getColorectalStageDescription (stage : String) : String :=
  if stage = "Stage I" then "Early stage confined to bowel wall"
  else if stage = "Stage II" then "Penetrated bowel wall but no lymph node spread"
  else if stage = "Stage III" then "Spread to nearby lymph nodes"
  else if stage = "Stage IV" then "Metastasis to distant organs"
  else "Staging information not available"

/-- Stage-description table for head and neck cancer. -/
def getHeadNeckStageDescription (stage : String) : String :=
  if stage = "Stage I" then "Small tumor, locally confined"
  else if stage = "Stage II" then "Large tumor but no lymph node spread"
  else if stage = "Stage III" then "Spread to nearby lymph nodes"
  else if stage = "Stage IVA" then "Locally advanced disease"
  else if stage = "Stage IVC" then "Distant metastasis"
  else stage

/-- `stageGallbladderCancer` from the staging module. -/
def stageGallbladderCancer (features : MedicalFeatures) : TNMStaging :=
  let T := if features.liver_invasion then "T3"
           else if features.tumor_size_cm > 2 then "T2"
           else if features.tumor_size_cm > 0 then "T1"
           else "Tx"
  let N := if features.lymph_nodes_involved = 0 then "N0"
           else if features.lymph_nodes_involved ≤ 3 then "N1"
           else "N2"
  let M := if features.distant_metastasis then "M1" else "M0"
  let stage :=
    if M = "M1" then "Stage IVB"
    else if T = "T3" ∧ N ≠ "N0" then "Stage IVA"
    else if T = "T3" then "Stage IIIB"
    else if T = "T2" ∧ N = "N0" then "Stage II"
    else if (T = "T1" ∨ T = "T2") ∧ N ≠ "N0" then "Stage IIIA"
    else if T = "T1" ∧ N = "N0" then "Stage I"
    else "Stage Unknown"
  ⟨T, N, M, stage, getGallbladderStageDescription stage⟩

/-- `stageEsophagealCancer` from the staging module; the `depthToT`
dictionary becomes an equality chain ending in the `'Tx'` fallback. -/
def stageEsophagealCancer (features : MedicalFeatures) : TNMStaging :=
  let d := lowerStr features.tumor_depth
  let T := if d = "mucosa" then "T1"
           else if d = "submucosa" then "T1b"
           else if d = "muscularis" then "T2"
           else if d = "adventitia" then "T3"
           else if d = "adjacent structures" then "T4"
           else "Tx"
  let N := if features.lymph_nodes_involved = 0 then "N0"
           else if features.lymph_nodes_involved ≤ 2 then "N1"
           else if features.lymph_nodes_involved ≤ 6 then "N2"
           else "N3"
  let M := if features.distant_metastasis then "M1" else "M0"
  let stage :=
    if M = "M1" then "Stage IVB"
    else if T = "T4" ∨ N = "N3" then "Stage IVA"
    else if (T = "T2" ∨ T = "T3") ∧ (N = "N0" ∨ N = "N1") then "Stage II"
    else if T = "T1" ∧ N = "N0" then "Stage I"
    else "Stage III"
  ⟨T, N, M, stage, getEsophagealStageDescription stage⟩

/-- `stageBreastCancer` from the staging module. -/
def stageBreastCancer (features : MedicalFeatures) : TNMStaging :=
  let T := if features.tumor_size_cm ≤ 2 then "T1"
           else if features.tumor_size_cm ≤ 5 then "T2"
           else "T3"
  let N := if features.lymph_nodes_involved = 0 then "N0"
           else if features.lymph_nodes_involved ≤ 3 then "N1"
           else if features.lymph_nodes_involved ≤ 9 then "N2"
           else "N3"
  let M := if features.distant_metastasis then "M1" else "M0"
  let stage :=
    if M = "M1" then "Stage IV"
    else if T = "T1" ∧ N = "N0" then "Stage I"
    else if (T = "T1" ∨ T = "T2") ∧ N = "N1" then "Stage II"
    else if T = "T3" ∨ (N = "N2" ∨ N = "N3") then "Stage III"
    else "Stage Unknown"
  ⟨T, N, M, stage, getBreastStageDescription stage⟩

/-- `stageLungCancer` from the staging module. -/
def stageLungCancer (features : MedicalFeatures) : TNMStaging :=
  let T := if features.tumor_size_cm ≤ 3 then "T1"
           else if features.tumor_size_cm ≤ 5 then "T2"
           else if features.tumor_size_cm ≤ 7 then "T3"
           else "T4"
  let N := if features.lymph_nodes_involved = 0 then "N0"
           else if features.lymph_nodes_involved ≤ 3 then "N1"
           else "N2"
  let M := if features.distant_metastasis then "M1" else "M0"
  let stage :=
    if M = "M1" then "Stage IV"
    else if T = "T1" ∧ N = "N0" then "Stage I"
    else if (T = "T2" ∨ T = "T3") ∧ (N = "N0" ∨ N = "N1") then "Stage II"
    else if (T = "T3" ∨ T = "T4") ∨ N = "N2" then "Stage III"
    else "Stage Unknown"
  ⟨T, N, M, stage, getLungStageDescription stage⟩

/-- `stageColorectalCancer` from the staging module. -/
def stageColorectalCancer (features : MedicalFeatures) : TNMStaging :=
  let d := lowerStr features.tumor_depth
  let T := if d = "submucosa" then "T1"
           else if d = "muscularis propria" then "T2"
           else if d = "subserosa" then "T3"
           else if d = "peritoneum/invasion" then "T4"
           else "Tx"
  let N := if features.lymph_nodes_involved = 0 then "N0"
           else if features.lymph_nodes_involved ≤ 3 then "N1"
           else "N2"
  let M := if features.distant_metastasis then "M1" else "M0"
  let stage :=
    if M = "M1" then "Stage IV"
    else if (T = "T1" ∨ T = "T2") ∧ N = "N0" then "Stage I"
    else if T = "T3" ∧ N = "N0" then "Stage II"
    else if N = "N1" ∨ N = "N2" then "Stage III"
    else "Stage Unknown"
  ⟨T, N, M, stage, getColorectalStageDescription stage⟩

/-- `stageHeadNeckCancer` from the staging module. -/
def stageHeadNeckCancer (features : MedicalFeatures) : TNMStaging :=
  let T := if features.tumor_size_cm ≤ 2 then "T1"
           else if features.tumor_size_cm ≤ 4 then "T2"
           else "T3"
  let N := if features.lymph_nodes_involved = 0 then "N0"
           else if features.lymph_nodes_involved = 1 then "N1"
           else if features.lymph_nodes_involved ≤ 3 then "N2"
           else "N3"
  let M := if features.distant_metastasis then "M1" else "M0"
  let stage :=
    if M = "M1" then "Stage IVC"
    else if T = "T1" ∧ N = "N0" then "Stage I"
    else if (T = "T1" ∨ T = "T2") ∧ (N = "N1" ∨ N = "N2") then "Stage II–III"
    else if T = "T3" ∨ N = "N3" then "Stage IV"
    else "Stage Unknown"
  ⟨T, N, M, stage, getHeadNeckStageDescription stage⟩

/-- `determineTNMStage`: lowercase the cancer type and dispatch to the
per-cancer staging function; unsupported types get the `Unknown` result. -/
def determineTNMStage (cancerType : String) (features : MedicalFeatures) : TNMStaging :=
  let type := lowerStr cancerType
  if type = "gallbladder" then stageGallbladderCancer features
  else if type = "esophageal" then stageEsophagealCancer features
  else if type = "breast" then stageBreastCancer features
  else if type = "lung" then stageLungCancer features
  else if type = "colorectal" then stageColorectalCancer features
  else if type = "head and neck" ∨ type = "oral cavity" ∨ type = "oropharynx" then
    stageHeadNeckCancer features
  else
    ⟨"Unknown", "Unknown", "Unknown", "Not available",
      "Staging not available for " ++ cancerType⟩

/-! ## Regex embedding

The JavaScript regular expressions of `utils.ts` are embedded with
list-of-successes combinators: each piece of a pattern maps a suffix of the
text to the list of suffixes it can leave behind, in the engine's
backtracking preference order, and the overall match is the head of the
combined list.  Case-insensitive patterns are run on the lowercased text,
which matches the source's behaviour on its ASCII inputs. -/

/-- Ordered alternation of literal words: the suffixes remaining after each
alternative that matches, in the pattern's preference order. -/
def altLits (lits : List (List Char)) (s : List Char) : List (List Char) :=
  lits.filterMap (fun l => litM l s)

/-- Like `altLits` but also returns which literal matched (a capture). -/
def altLitsCap (lits : List (List Char)) (s : List Char) :
    List (List Char × List Char) :=
  lits.filterMap (fun l => (litM l s).map (fun r => (l, r)))

/-- Greedy star over a character class: remaining suffixes, longest
consumption first. -/
def starGreedy (p : Char → Bool) : List Char → List (List Char)
  | [] => [[]]
  | c :: cs => if p c then starGreedy p cs ++ [c :: cs] else [c :: cs]

/-- Lazy star over a character class: remaining suffixes, shortest
consumption first. -/
def starLazy (p : Char → Bool) : List Char → List (List Char)
  | [] => [[]]
  | c :: cs => if p c then (c :: cs) :: starLazy p cs else [c :: cs]

/-- `\d+` with its capture, alternatives longest first. -/
def digitsG : List Char → List (List Char × List Char)
  | [] => []
  | c :: cs =>
    if isDigitChar c then
      ((digitsG cs).map (fun pr => (c :: pr.1, pr.2))) ++ [([c], cs)]
    else []

/-- `(?:\.\d+)?`, greedy: the fractional alternatives first, then the empty
alternative. -/
def fracG (s : List Char) : List (List Char × List Char) :=
  (match s with
   | '.' :: cs => (digitsG cs).map (fun pr => ('.' :: pr.1, pr.2))
   | _ => []) ++ [([], s)]

/-- `\d+(?:\.\d+)?` with its capture. -/
def numG (s : List Char) : List (List Char × List Char) :=
  (digitsG s).flatMap (fun pr => (fracG pr.2).map (fun qr => (pr.1 ++ qr.1, qr.2)))

/-- Numeric value of a digit string (`parseInt`). -/
def digitsVal (l : List Char) : ℕ :=
  l.foldl (fun a c => 10 * a + (c.toNat - 48)) 0

/-- `parseFloat` on a string matching `\d+(\.\d+)?`, as an exact rational. -/
def decToRat (l : List Char) : ℚ :=
  let intPart := l.takeWhile isDigitChar
  match l.dropWhile isDigitChar with
  | '.' :: f => (digitsVal intPart : ℚ) + (digitsVal f : ℚ) / ((10 : ℚ) ^ f.length)
  | _ => (digitsVal intPart : ℚ)

/-- One iteration of the `(?:x\s*\d+(?:\.\d+)?)*` group of the size
pattern. -/
def xIter (s : List Char) : List (List Char) :=
  (litM ['x'] s).toList.flatMap (fun r1 =>
    (starGreedy isJsSpace r1).flatMap (fun r2 => (numG r2).map Prod.snd))

/-- The starred group, greedy (more iterations preferred).  Each iteration
consumes at least the `x`, so fuel equal to the suffix length suffices. -/
def xRep : ℕ → List Char → List (List Char)
  | 0, s => [s]
  | fuel + 1, s => ((xIter s).flatMap (fun r => xRep fuel r)) ++ [s]

/-- One attempted match of the tumor-size pattern of `extractTumorSize`,
`(?:tumor|mass|lesion|growth)[\s\w]*?(?:measuring|measures|size|sized?)\s*(?:approximately|approx\.?|about)?\s*(\d+(?:\.\d+)?)\s*(?:x\s*\d+(?:\.\d+)?)*\s*(cm|mm)`,
at the start of `s` (text already lowercased), returning the two captures
and the suffix after the match.  The alternative `sized?` only adds the word
`sized` after `size` has been tried, so the effective alternation is
`measuring`, `measures`, `size`, `sized`. -/
def matchSizeAt (s : List Char) : Option (String × String × List Char) :=
  ((altLits ["tumor".toList, "mass".toList, "lesion".toList, "growth".toList] s).flatMap fun r1 =>
   (starLazy (fun c => isJsSpace c || isWordChar c) r1).flatMap fun r2 =>
   (altLits ["measuring".toList, "measures".toList, "size".toList, "sized".toList] r2).flatMap fun r3 =>
   (starGreedy isJsSpace r3).flatMap fun r4 =>
   ((altLits ["approximately".toList, "approx.".toList, "approx".toList, "about".toList] r4) ++ [r4]).flatMap fun r5 =>
   (starGreedy isJsSpace r5).flatMap fun r6 =>
   (numG r6).flatMap fun g1 =>
   (starGreedy isJsSpace g1.2).flatMap fun r8 =>
   (xRep r8.length r8).flatMap fun r9 =>
   (starGreedy isJsSpace r9).flatMap fun r10 =>
   (altLitsCap ["cm".toList, "mm".toList] r10).map fun g2 =>
     (String.mk g1.1, String.mk g2.1, g2.2)).head?

/-- `matchAll` scan for the size pattern: matches are found left to right
and the scan resumes after each match (every match consumes at least one
character, so fuel equal to the text length suffices). -/
def scanSizes : ℕ → List Char → List (String × String)
  | 0, _ => []
  | _, [] => []
  | fuel + 1, c :: cs =>
    match matchSizeAt (c :: cs) with
    | some (g1, g2, rest) => (g1, g2) :: scanSizes fuel rest
    | none => scanSizes fuel cs

structure TumorSizeResult where
  size : ℚ
  confidence : ℚ
deriving Repr, DecidableEq

/-- `extractTumorSize` from `utils.ts`: collect all pattern matches, convert
`mm` to `cm`, and return the largest size. -/
def extractTumorSize (text : String) : TumorSizeResult :=
  let tl := (lowerStr text).toList
  let ms := scanSizes tl.length tl
  let sizes := ms.map (fun m =>
    let v := decToRat m.1.toList
    if m.2 = "mm" then v / 10 else v)
  match sizes with
  | [] => ⟨0, 0⟩
  | s0 :: rest => ⟨rest.foldl max s0, if rest = [] then 0.9 else 0.7⟩

structure CancerTypeResult where
  type : String
  confidence : ℚ
deriving Repr, DecidableEq

/-- The keyword dictionary of `extractCancerType`, in insertion order. -/
def cancerKeywords : List (String × List String) :=
  [("gallbladder", ["gallbladder", "gb carcinoma", "cholangiocarcinoma"]),
   ("esophageal", ["esophagus", "esophageal", "oesophageal"]),
   ("breast", ["breast", "mammary", "ductal carcinoma", "lobular carcinoma"]),
   ("lung", ["lung", "pulmonary", "nsclc", "sclc", "bronchogenic"]),
   ("colorectal", ["colon", "rectum", "colorectal", "rectal", "colonic"]),
   ("head and neck", ["oral cavity", "oropharynx", "larynx", "pharynx", "head and neck"])]

/-- `keyword.split(' ').length`: one more than the number of spaces. -/
def wordCount (kw : String) : ℕ :=
  kw.toList.count ' ' + 1

/-- Score of one cancer type: 0.3 per word of each keyword found in the
text. -/
def keywordScore (tl : List Char) (kws : List String) : ℚ :=
  kws.foldl
    (fun score kw =>
      if occursIn (lowerStr kw).toList tl then score + (wordCount kw : ℚ) * 0.3
      else score)
    0

/-- `extractCancerType` from `utils.ts`: keyword containment scoring with a
strict-improvement fold over the dictionary (ties keep the earlier type). -/
def extractCancerType (text : String) : CancerTypeResult :=
  let tl := (lowerStr text).toList
  let best := cancerKeywords.foldl
    (fun acc p =>
      let score := keywordScore tl p.2
      if score > acc.2 then (p.1, score) else acc)
    ("", 0)
  ⟨best.1, min (best.2 / 3) 1⟩

structure LymphNodeResult where
  count : ℕ
  confidence : ℚ
deriving Repr, DecidableEq

/-- First group of the node pattern: the digit capture or one of the
quantity words, in alternation order. -/
def nodeQty (s : List Char) : List (Option String × List Char) :=
  ((digitsG s).map fun pr => (some (String.mk pr.1), pr.2)) ++
  ((altLits ["multiple".toList, "several".toList, "numerous".toList] s).map fun r =>
    ((none : Option String), r))

/-- `nodes?`: the word `node` with an optional greedy plural `s`. -/
def nodeOpt (s : List Char) : List (List Char) :=
  (litM "node".toList s).toList.flatMap fun r =>
    match r with
    | 's' :: cs => [cs, r]
    | _ => [r]

/-- `(?:lymph\s*nodes?|nodes?|LN)` in alternation order (`LN` is matched on
the lowercased text). -/
def nodesTail (s : List Char) : List (List Char) :=
  ((litM "lymph".toList s).toList.flatMap fun r =>
    (starGreedy isJsSpace r).flatMap nodeOpt) ++
  nodeOpt s ++ (litM "ln".toList s).toList

/-- One attempted match of the lymph-node pattern of `extractLymphNodes`,
`(?:(?<num>\d+)|multiple|several|numerous)\s*(?:positive|involved|metastatic|malignant|enlarged)?\s*(?:lymph\s*nodes?|nodes?|LN)`,
at the start of `s`, returning the optional digit capture and the suffix
after the match. -/
def matchNodesAt (s : List Char) : Option (Option String × List Char) :=
  ((nodeQty s).flatMap fun q =>
   (starGreedy isJsSpace q.2).flatMap fun r2 =>
   ((altLits ["positive".toList, "involved".toList, "metastatic".toList,
              "malignant".toList, "enlarged".toList] r2) ++ [r2]).flatMap fun r3 =>
   (starGreedy isJsSpace r3).flatMap fun r4 =>
   (nodesTail r4).map fun rest => (q.1, rest)).head?

/-- `matchAll` scan for the node pattern, returning for each match the digit
capture (when present) together with the full matched text. -/
def scanNodes : ℕ → List Char → List (Option String × String)
  | 0, _ => []
  | _, [] => []
  | fuel + 1, c :: cs =>
    match matchNodesAt (c :: cs) with
    | some (num, rest) =>
      (num, String.mk ((c :: cs).take ((c :: cs).length - rest.length))) ::
        scanNodes fuel rest
    | none => scanNodes fuel cs

/-- `extractLymphNodes` from `utils.ts`: numeric captures count directly,
`multiple`/`numerous` count as 5 and `several` as 3; the largest count
wins. -/
def extractLymphNodes (text : String) : LymphNodeResult :=
  let tl := (lowerStr text).toList
  let ms := scanNodes tl.length tl
  let counts := ms.flatMap fun m =>
    match m.1 with
    | some d => [digitsVal d.toList]
    | none =>
      if containsStr m.2 "multiple" || containsStr m.2 "numerous" then [5]
      else if containsStr m.2 "several" then [3]
      else []
  match counts with
  | [] => ⟨0, 0.5⟩
  | c0 :: rest => ⟨rest.foldl max c0, 0.8⟩

structure MetastasisResult where
  hasMetastasis : Bool
  confidence : ℚ
deriving Repr, DecidableEq

/-- `metastas[ei]s|metastatic\s*disease|secondary\s*deposits?|disseminated`
in alternation order (the character class `[ei]` tries `e` before `i`). -/
def metCore (s : List Char) : List (List Char) :=
  ((litM "metastas".toList s).toList.flatMap fun r =>
    (altLits [['e'], ['i']] r).flatMap fun r2 => (litM ['s'] r2).toList) ++
  ((litM "metastatic".toList s).toList.flatMap fun r =>
    (starGreedy isJsSpace r).flatMap fun r2 => (litM "disease".toList r2).toList) ++
  ((litM "secondary".toList s).toList.flatMap fun r =>
    (starGreedy isJsSpace r).flatMap fun r2 =>
      (litM "deposit".toList r2).toList.flatMap fun r3 =>
        match r3 with
        | 's' :: cs => [cs, r3]
        | _ => [r3]) ++
  (litM "disseminated".toList s).toList

/-- One attempted match of the metastasis pattern of `extractMetastasis`,
`(?:distant\s*)?(?:metastas[ei]s|metastatic\s*disease|secondary\s*deposits?|disseminated)`,
at the start of `s`, returning the suffix after the match. -/
def matchMetAt (s : List Char) : Option (List Char) :=
  ((((litM "distant".toList s).toList.flatMap fun r => starGreedy isJsSpace r) ++ [s]).flatMap
    metCore).head?

/-- `matchAll` scan for the metastasis pattern, returning match start
indices. -/
def scanMet : ℕ → ℕ → List Char → List ℕ
  | 0, _, _ => []
  | _, _, [] => []
  | fuel + 1, idx, c :: cs =>
    match matchMetAt (c :: cs) with
    | some rest => idx :: scanMet fuel (idx + ((c :: cs).length - rest.length)) rest
    | none => scanMet fuel (idx + 1) cs

/-- The negation cue words checked in the 50 characters before a match. -/
def negationCues : List String := ["no ", "without", "negative", "absent"]

/-- `extractMetastasis` from `utils.ts`: any match of the pattern signals
metastasis unless some match is preceded (within 50 characters) by a
negation cue. -/
def extractMetastasis (text : String) : MetastasisResult :=
  let tl := (lowerStr text).toList
  let idxs := scanMet tl.length 0 tl
  match idxs with
  | [] => ⟨false, 0.6⟩
  | _ :: _ =>
    let negated := idxs.any fun idx =>
      let start := idx - 50
      let context := (tl.drop start).take (idx - start)
      negationCues.any fun w => occursIn w.toList context
    ⟨!negated, if !negated then 0.9 else 0.8⟩

/-- One attempted match of the liver-invasion pattern inlined in
`DocumentProcessor.extractFeatures`,
`(?:liver|hepatic)\s*(?:invasion|involvement|infiltration|extension|involvement)|involving\s*(?:liver|segments?)`,
at the start of `s` (the source lists `involvement` twice). -/
def liverAt (s : List Char) : Bool :=
  let branch1 :=
    (altLits ["liver".toList, "hepatic".toList] s).flatMap fun r =>
      (starGreedy isJsSpace r).flatMap fun r2 =>
        altLits ["invasion".toList, "involvement".toList, "infiltration".toList,
                 "extension".toList, "involvement".toList] r2
  let branch2 :=
    (litM "involving".toList s).toList.flatMap fun r =>
      (starGreedy isJsSpace r).flatMap fun r2 =>
        (litM "liver".toList r2).toList ++
        ((litM "segment".toList r2).toList.flatMap fun r3 =>
          match r3 with
          | 's' :: cs => [cs, r3]
          | _ => [r3])
  !(branch1 ++ branch2).isEmpty

/-- `RegExp.prototype.test` for the liver pattern: a match exists at some
position. -/
def liverTest : ℕ → List Char → Bool
  | 0, _ => false
  | _, [] => false
  | fuel + 1, c :: cs => liverAt (c :: cs) || liverTest fuel cs

/-- The liver-invasion check of `DocumentProcessor.extractFeatures`. -/
def liverInvasionOf (text : String) : Bool :=
  liverTest (lowerStr text).toList.length (lowerStr text).toList

/-- The ordered depth keywords of `DocumentProcessor.extractFeatures`. -/
def depthKeywords : List String :=
  ["mucosa", "submucosa", "muscularis", "subserosa", "serosa", "adventitia"]

/-- The tumor-depth loop of `DocumentProcessor.extractFeatures`: the first
keyword contained in the lowercased text, defaulting to the empty string. -/
def tumorDepthOf (text : String) : String :=
  match depthKeywords.find? (fun d => occursIn d.toList (lowerStr text).toList) with
  | some d => d
  | none => ""

/-- `DocumentProcessor.extractFeatures`: compose the four extractors with
the liver-invasion and tumor-depth checks and record the confidence
scores. -/
def extractFeatures (text : String) : MedicalFeatures :=
  let cancerResult := extractCancerType text
  let sizeResult := extractTumorSize text
  let nodesResult := extractLymphNodes text
  let metastasisResult := extractMetastasis text
  let liverInvasion := liverInvasionOf text
  let tumorDepth := tumorDepthOf text
  { cancer_type := cancerResult.type
    tumor_size_cm := sizeResult.size
    lymph_nodes_involved := nodesResult.count
    distant_metastasis := metastasisResult.hasMetastasis
    liver_invasion := liverInvasion
    tumor_depth := tumorDepth
    confidence_scores :=
      { cancer_type := cancerResult.confidence
        tumor_size := sizeResult.confidence
        lymph_nodes := nodesResult.confidence
        metastasis := metastasisResult.confidence
        liver_invasion := if liverInvasion then 0.8 else 0.7
        tumor_depth := if tumorDepth = "" then 0.0 else 0.8 }
    extracted_values := () }

/-! ## Document processor (`document-processor.ts`)

`processDocument` is modelled over an environment holding the outcomes of
the library-backed sub-processors (PDF.js, Mammoth, Tesseract) and the two
`Date.now()` readings; thrown errors are `Except.error` messages. -/

structure FileRec where
  name : String
  size : ℕ
  type : String
deriving Repr, DecidableEq

structure OCRResult where
  text : String
  confidence : ℚ
  method : String
  processing_time : ℚ
  page_count : ℕ
  file_info : FileRec
deriving Repr, DecidableEq

/-- The value returned by `processPDF`. -/
structure PdfOut where
  text : String
  confidence : ℚ
  method : String
  pageCount : ℕ
deriving Repr, DecidableEq

/-- The value returned by `processImage`. -/
structure ImgOut where
  text : String
  confidence : ℚ
deriving Repr, DecidableEq

/-- The sub-processor outcomes and clock readings visible to
`processDocument` during one call. -/
structure DocEnv where
  pdfResult : Except String PdfOut
  docxResult : Except String String
  imageResult : Except String ImgOut
  startTime : ℚ
  endTime : ℚ

/-- `DocumentProcessor.processDocument`: dispatch on the MIME type, build
the `OCRResult`, throw on unsupported types, and rewrap any error thrown
inside the `try` block with the `Document processing failed: ` message. -/
def processDocument (env : DocEnv) (file : FileRec) : Except String OCRResult :=
  let processing_time := (env.endTime - env.startTime) / 1000
  let inner : Except String OCRResult :=
    if file.type = "application/pdf" then
      env.pdfResult.map fun r =>
        ⟨r.text, r.confidence, r.method, processing_time, r.pageCount, file⟩
    else if file.type = "application/vnd.openxmlformats-officedocument.wordprocessingml.document" then
      env.docxResult.map fun t =>
        ⟨t, 0.95, "docx_extraction", processing_time, 1, file⟩
    else if strStarts "image/" file.type then
      env.imageResult.map fun r =>
        ⟨r.text, r.confidence, "tesseract_ocr", processing_time, 1, file⟩
    else
      Except.error "Unsupported file type"
  match inner with
  | Except.ok r => Except.ok r
  | Except.error e => Except.error ("Document processing failed: " ++ e)

/-- A parsed PDF as `processPDF` sees it: per page, the `str` fields of the
text-content items (`numPages` is the number of pages). -/
structure PdfDoc where
  pages : List (List String)
deriving Repr, DecidableEq

/-- The text layer of one page: the items joined with spaces. -/
def pageTextOf (items : List String) : String :=
  String.intercalate " " items

/-- The page loop of `processPDF`: each page's text followed by a newline,
accumulated over all pages. -/
def pdfJoined (doc : PdfDoc) : String :=
  doc.pages.foldl (fun acc pg => acc ++ pageTextOf pg ++ "\n") ""

/-- The OCR outcome for the rendered first page of a PDF. -/
structure OcrOut where
  text : String
  confidence : ℚ
deriving Repr, DecidableEq

/-- `DocumentProcessor.processPDF`: standard text extraction over all pages
first; when at most 100 characters survive trimming, fall back to OCR of
the rendered first page. -/
def processPDF (doc : PdfDoc) (firstPageOcr : OcrOut) : PdfOut :=
  let text := pdfJoined doc
  if (trimStr text).length > 100 then
    ⟨trimStr text, 0.95, "standard_extraction", doc.pages.length⟩
  else
    ⟨firstPageOcr.text, firstPageOcr.confidence, "pdf_ocr", doc.pages.length⟩

/-! ## Processing pipeline steps (`ProcessingSteps.tsx`, `page.tsx`) -/

structure StepData where
  id : ℕ
  title : String
  description : String
  icon : String
deriving Repr, DecidableEq

/-- The `steps` array of `ProcessingSteps.tsx`. -/
def processingSteps : List StepData :=
  [⟨1, "Document Upload", "Upload and validate your PET/CT report", "📄"⟩,
   ⟨2, "OCR Processing", "Extract text using advanced OCR technology", "🔍"⟩,
   ⟨3, "Feature Extraction", "Identify medical features and staging information", "🧠"⟩,
   ⟨4, "TNM Staging", "Calculate TNM staging based on extracted features", "📊"⟩,
   ⟨5, "AI Analysis", "Generate AI-powered clinical insights", "🤖"⟩]

/-- The successive `current_step` assignments performed by
`handleFileSelect` in `page.tsx` (steps 2, 3, 4, then 5 twice). -/
def stepUpdates : List ℕ := [2, 3, 4, 5, 5]

/-- The trace of `current_step` values during a run that performs the first
`k` updates before finishing or throwing; the state starts at 1. -/
def runTrace (k : ℕ) : List ℕ := 1 :: stepUpdates.take k

/-! ## Treatment guidelines (`getTreatmentGuidelines`) -/

/-- The stage-group classification at the end of `getTreatmentGuidelines`:
an `includes`-based cascade starting with the group-I test. -/
def stageGroupOf (stage : String) : String :=
  if containsStr stage "I" && !containsStr stage "V" then "I"
  else if containsStr stage "II" then "II"
  else if containsStr stage "III" then "III"
  else if containsStr stage "IV" then "IV"
  else "Unknown"

/-- The `treatmentDict` nested dictionary of `getTreatmentGuidelines`. -/
def treatmentFor (cancerType stageGroup : String) : Option String :=
  if cancerType = "gallbladder" then
    if stageGroup = "I" then some "Surgical resection (simple cholecystectomy or wedge resection)."
    else if stageGroup = "II" then some "Extended cholecystectomy with lymph node dissection."
    else if stageGroup = "III" then some "Surgical resection ± adjuvant chemoradiotherapy."
    else if stageGroup = "IV" then some "Systemic chemotherapy (e.g., gemcitabine + cisplatin)."
    else none
  else if cancerType = "esophageal" then
    if stageGroup = "I" then some "Endoscopic mucosal resection or esophagectomy."
    else if stageGroup = "II" then some "Neoadjuvant chemoradiotherapy followed by surgery."
    else if stageGroup = "III" then some "Definitive chemoradiation or surgery after neoadjuvant therapy."
    else if stageGroup = "IV" then some "Systemic therapy or palliative RT/stent placement."
    else none
  else if cancerType = "breast" then
    if stageGroup = "I" then some "Surgery (BCS or mastectomy) ± adjuvant RT."
    else if stageGroup = "II" then some "Surgery + chemo/hormonal therapy + radiation."
    else if stageGroup = "III" then some "Neoadjuvant chemotherapy → surgery + adjuvant therapy."
    else if stageGroup = "IV" then some "Systemic therapy based on biomarkers."
    else none
  else if cancerType = "lung" then
    if stageGroup = "I" then some "Surgical resection ± adjuvant chemo."
    else if stageGroup = "II" then some "Surgery + chemo ± radiation."
    else if stageGroup = "III" then some "Concurrent chemoradiotherapy ± immunotherapy."
    else if stageGroup = "IV" then some "Targeted therapy, immunotherapy, or chemo."
    else none
  else if cancerType = "colorectal" then
    if stageGroup = "I" then some "Surgical resection (segmental colectomy)."
    else if stageGroup = "II" then some "Surgery ± adjuvant chemo (if high-risk)."
    else if stageGroup = "III" then some "Surgery + adjuvant FOLFOX or CAPOX."
    else if stageGroup = "IV" then some "Systemic therapy ± targeted therapy."
    else none
  else if cancerType = "head and neck" then
    if stageGroup = "I" then some "Surgery or radiation alone."
    else if stageGroup = "II" then some "Surgery ± adjuvant RT."
    else if stageGroup = "III" then some "Surgery + RT/chemo or concurrent chemoradiation."
    else if stageGroup = "IV" then some "Systemic therapy ± RT. Consider immunotherapy."
    else none
  else none

/-- `getTreatmentGuidelines` from the staging module. -/
def getTreatmentGuidelines (cancerType stage : String) : String :=
  (treatmentFor cancerType (stageGroupOf stage)).getD "Treatment information not available."

/-! ## Helper lemmas and sample values -/

/-- Matching a literal against itself followed by anything succeeds and
leaves the rest. -/
theorem litM_append (l rest : List Char) : litM l (l ++ rest) = some rest := by
  induction l with
  | nil => simp [litM]
  | cons c cs ih => simp [litM, ih]

/-- A string starts with any of its own leading segments. -/
theorem strStarts_append (p e : String) : strStarts p (p ++ e) = true := by
  simp [strStarts, String.toList, String.data_append, litM_append]

/-- The T component of breast staging as a threshold function. -/
theorem breast_T_eq (f : MedicalFeatures) :
    (stageBreastCancer f).T =
      (if f.tumor_size_cm ≤ 2 then "T1"
       else if f.tumor_size_cm ≤ 5 then "T2" else "T3") := rfl

/-- The T component of lung staging as a threshold function. -/
theorem lung_T_eq (f : MedicalFeatures) :
    (stageLungCancer f).T =
      (if f.tumor_size_cm ≤ 3 then "T1"
       else if f.tumor_size_cm ≤ 5 then "T2"
       else if f.tumor_size_cm ≤ 7 then "T3" else "T4") := rfl

/-- The T component of head-and-neck staging as a threshold function. -/
theorem headneck_T_eq (f : MedicalFeatures) :
    (stageHeadNeckCancer f).T =
      (if f.tumor_size_cm ≤ 2 then "T1"
       else if f.tumor_size_cm ≤ 4 then "T2" else "T3") := rfl

/-- The N component of gallbladder staging as a threshold function. -/
theorem gallbladder_N_eq (f : MedicalFeatures) :
    (stageGallbladderCancer f).N =
      (if f.lymph_nodes_involved = 0 then "N0"
       else if f.lymph_nodes_involved ≤ 3 then "N1" else "N2") := rfl

/-- The N component of esophageal staging as a threshold function. -/
theorem esophageal_N_eq (f : MedicalFeatures) :
    (stageEsophagealCancer f).N =
      (if f.lymph_nodes_involved = 0 then "N0"
       else if f.lymph_nodes_involved ≤ 2 then "N1"
       else if f.lymph_nodes_involved ≤ 6 then "N2" else "N3") := rfl

/-- The N component of breast staging as a threshold function. -/
theorem breast_N_eq (f : MedicalFeatures) :
    (stageBreastCancer f).N =
      (if f.lymph_nodes_involved = 0 then "N0"
       else if f.lymph_nodes_involved ≤ 3 then "N1"
       else if f.lymph_nodes_involved ≤ 9 then "N2" else "N3") := rfl

/-- The N component of lung staging as a threshold function. -/
theorem lung_N_eq (f : MedicalFeatures) :
    (stageLungCancer f).N =
      (if f.lymph_nodes_involved = 0 then "N0"
       else if f.lymph_nodes_involved ≤ 3 then "N1" else "N2") := rfl

/-- The N component of colorectal staging as a threshold function. -/
theorem colorectal_N_eq (f : MedicalFeatures) :
    (stageColorectalCancer f).N =
      (if f.lymph_nodes_involved = 0 then "N0"
       else if f.lymph_nodes_involved ≤ 3 then "N1" else "N2") := rfl

/-- The N component of head-and-neck staging as a threshold function. -/
theorem headneck_N_eq (f : MedicalFeatures) :
    (stageHeadNeckCancer f).N =
      (if f.lymph_nodes_involved = 0 then "N0"
       else if f.lymph_nodes_involved = 1 then "N1"
       else if f.lymph_nodes_involved ≤ 3 then "N2" else "N3") := rfl

/-- A concrete non-metastatic feature record (breast-like, 3 cm, 2 nodes). -/
def sampleFeatures : MedicalFeatures :=
  { cancer_type := "breast", tumor_size_cm := 3, lymph_nodes_involved := 2,
    distant_metastasis := false, liver_invasion := false, tumor_depth := "",
    confidence_scores := ⟨0, 0, 0, 0, 0, 0⟩, extracted_values := () }

/-- A concrete feature record with larger size and node count. -/
def sampleFeaturesBig : MedicalFeatures :=
  { cancer_type := "breast", tumor_size_cm := 6, lymph_nodes_involved := 4,
    distant_metastasis := false, liver_invasion := false, tumor_depth := "",
    confidence_scores := ⟨0, 0, 0, 0, 0, 0⟩, extracted_values := () }

/-- A concrete feature record with distant metastasis. -/
def sampleFeaturesMet : MedicalFeatures :=
  { cancer_type := "lung", tumor_size_cm := 1, lymph_nodes_involved := 0,
    distant_metastasis := true, liver_invasion := false, tumor_depth := "",
    confidence_scores := ⟨0, 0, 0, 0, 0, 0⟩, extracted_values := () }

/-! ## Claims -/

/-- C1: `determineTNMStage` maps features to a TNM stage through a fixed
per-cancer-type dispatch: each supported name (compared after lowercasing)
goes to its staging function, whose output depends only on the features,
and every other cancer-type string yields T, N, M `Unknown` and stage
`Not available`. -/
theorem c1_determineTNMStage_dispatch (ct : String) (f : MedicalFeatures) :
    (lowerStr ct = "gallbladder" →
      determineTNMStage ct f = stageGallbladderCancer f) ∧
    (lowerStr ct = "esophageal" →
      determineTNMStage ct f = stageEsophagealCancer f) ∧
    (lowerStr ct = "breast" →
      determineTNMStage ct f = stageBreastCancer f) ∧
    (lowerStr ct = "lung" →
      determineTNMStage ct f = stageLungCancer f) ∧
    (lowerStr ct = "colorectal" →
      determineTNMStage ct f = stageColorectalCancer f) ∧
    (lowerStr ct = "head and neck" ∨ lowerStr ct = "oral cavity" ∨
        lowerStr ct = "oropharynx" →
      determineTNMStage ct f = stageHeadNeckCancer f) ∧
    (lowerStr ct ∉ ["gallbladder", "esophageal", "breast", "lung", "colorectal",
        "head and neck", "oral cavity", "oropharynx"] →
      (determineTNMStage ct f).T = "Unknown" ∧
      (determineTNMStage ct f).N = "Unknown" ∧
      (determineTNMStage ct f).M = "Unknown" ∧
      (determineTNMStage ct f).stage = "Not available") := by
  refine ⟨?_, ?_, ?_, ?_, ?_, ?_, ?_⟩
  · intro h; simp [determineTNMStage, h]
  · intro h; simp [determineTNMStage, h]
  · intro h; simp [determineTNMStage, h]
  · intro h; simp [determineTNMStage, h]
  · intro h; simp [determineTNMStage, h]
  · rintro (h | h | h) <;> simp [determineTNMStage, h]
  · intro h
    simp only [List.mem_cons, List.not_mem_nil, or_false, not_or] at h
    obtain ⟨h1, h2, h3, h4, h5, h6, h7, h8⟩ := h
    simp [determineTNMStage, h1, h2, h3, h4, h5, h6, h7, h8]

/-- C1 witness: the dispatch lemma applied to the mixed-case name
`Breast`. -/
theorem c1_determineTNMStage_dispatch_witness :
    determineTNMStage "Breast" sampleFeatures = stageBreastCancer sampleFeatures :=
  (c1_determineTNMStage_dispatch "Breast" sampleFeatures).2.2.1 (by decide)

/-- C2: `extractFeatures` returns exactly the four extractor outputs
(cancer type, tumor size, lymph-node count, metastasis flag) plus the
liver-invasion flag and tumor depth, together with their confidence
scores. -/
theorem c2_extractFeatures_fields (text : String) :
    (extractFeatures text).cancer_type = (extractCancerType text).type ∧
    (extractFeatures text).tumor_size_cm = (extractTumorSize text).size ∧
    (extractFeatures text).lymph_nodes_involved = (extractLymphNodes text).count ∧
    (extractFeatures text).distant_metastasis = (extractMetastasis text).hasMetastasis ∧
    (extractFeatures text).liver_invasion = liverInvasionOf text ∧
    (extractFeatures text).tumor_depth = tumorDepthOf text ∧
    (extractFeatures text).confidence_scores =
      ⟨(extractCancerType text).confidence, (extractTumorSize text).confidence,
       (extractLymphNodes text).confidence, (extractMetastasis text).confidence,
       if liverInvasionOf text then 0.8 else 0.7,
       if tumorDepthOf text = "" then 0.0 else 0.8⟩ :=
  ⟨rfl, rfl, rfl, rfl, rfl, rfl, rfl⟩

/-- C3: the extraction and staging layer is deterministic: two runs on
equal inputs return equal results for each of the four extractors and for
`determineTNMStage`. -/
theorem c3_deterministic (t1 t2 : String) (ht : t1 = t2)
    (ct1 ct2 : String) (f1 f2 : MedicalFeatures)
    (hct : ct1 = ct2) (hf : f1 = f2) :
    extractCancerType t1 = extractCancerType t2 ∧
    extractTumorSize t1 = extractTumorSize t2 ∧
    extractLymphNodes t1 = extractLymphNodes t2 ∧
    extractMetastasis t1 = extractMetastasis t2 ∧
    determineTNMStage ct1 f1 = determineTNMStage ct2 f2 := by
  subst ht; subst hct; subst hf
  exact ⟨rfl, rfl, rfl, rfl, rfl⟩

/-- C3 witness: determinism instantiated on a concrete report text. -/
theorem c3_deterministic_witness :
    extractCancerType "lung mass measuring 4 cm" =
      extractCancerType "lung mass measuring 4 cm" :=
  (c3_deterministic "lung mass measuring 4 cm" "lung mass measuring 4 cm" rfl
    "lung" "lung" sampleFeatures sampleFeatures rfl rfl).1

/-- A sample environment whose PDF sub-processor failed. -/
def sampleEnv : DocEnv :=
  ⟨Except.error "PDF processing failed: boom", Except.ok "hello",
   Except.ok ⟨"img", 1/2⟩, 0, 1000⟩

/-- A plain-text upload, outside the three supported kinds. -/
def sampleTxtFile : FileRec := ⟨"a.txt", 10, "text/plain"⟩

/-- C4: `processDocument` accepts exactly PDF, DOCX and image MIME types,
returning an `OCRResult` built from the corresponding sub-processor
outcome; every other MIME type throws, and every error leaving the
function carries the `Document processing failed: ` message. -/
theorem c4_processDocument_dispatch (env : DocEnv) (file : FileRec) :
    (∀ r, file.type = "application/pdf" → env.pdfResult = Except.ok r →
      processDocument env file = Except.ok
        ⟨r.text, r.confidence, r.method,
         (env.endTime - env.startTime) / 1000, r.pageCount, file⟩) ∧
    (∀ t,
      file.type = "application/vnd.openxmlformats-officedocument.wordprocessingml.document" →
      env.docxResult = Except.ok t →
      processDocument env file = Except.ok
        ⟨t, 0.95, "docx_extraction",
         (env.endTime - env.startTime) / 1000, 1, file⟩) ∧
    (∀ r, strStarts "image/" file.type = true → env.imageResult = Except.ok r →
      processDocument env file = Except.ok
        ⟨r.text, r.confidence, "tesseract_ocr",
         (env.endTime - env.startTime) / 1000, 1, file⟩) ∧
    (file.type ≠ "application/pdf" →
     file.type ≠ "application/vnd.openxmlformats-officedocument.wordprocessingml.document" →
     strStarts "image/" file.type = false →
      processDocument env file =
        Except.error "Document processing failed: Unsupported file type") ∧
    (∀ e, processDocument env file = Except.error e →
      strStarts "Document processing failed: " e = true) := by
  refine ⟨?_, ?_, ?_, ?_, ?_⟩
  · intro r h hok; simp [processDocument, h, hok, Except.map]
  · intro t h hok; simp [processDocument, h, hok, Except.map]
  · intro r himg hok
    have h1 : file.type ≠ "application/pdf" := by
      intro h; rw [h] at himg; revert himg; decide
    have h2 : file.type ≠
        "application/vnd.openxmlformats-officedocument.wordprocessingml.document" := by
      intro h; rw [h] at himg; revert himg; decide
    simp [processDocument, h1, h2, himg, hok, Except.map]
  · intro h1 h2 h3; simp [processDocument, h1, h2, h3]
  · intro e he
    simp only [processDocument] at he
    split at he
    · simp at he
    · rename_i msg
      injection he with h'
      rw [← h']
      exact strStarts_append _ _

/-- C4 witness: a plain-text upload is rejected with the wrapped
`Unsupported file type` error. -/
theorem c4_processDocument_dispatch_witness :
    processDocument sampleEnv sampleTxtFile =
      Except.error "Document processing failed: Unsupported file type" :=
  (c4_processDocument_dispatch sampleEnv sampleTxtFile).2.2.2.1
    (by decide) (by decide) (by decide)

/-- Numeric rank of the T categories the stagers produce. -/
def tRank : String → ℕ
  | "T1" => 1
  | "T2" => 2
  | "T3" => 3
  | "T4" => 4
  | _ => 0

/-- Numeric rank of the N categories the stagers produce. -/
def nRank : String → ℕ
  | "N0" => 0
  | "N1" => 1
  | "N2" => 2
  | "N3" => 3
  | _ => 4

/-- C5: the staging tables classify by numeric thresholds, so the assigned
categories are monotone: the T component is a non-decreasing step function
of tumor size for breast, lung and head-and-neck cancer (with the stated
breast thresholds), and for every supported cancer type the N component is
a non-decreasing step function of the node count, equal to `N0` exactly
when no nodes are involved. -/
theorem c5_threshold_monotone (f g : MedicalFeatures)
    (hsize : f.tumor_size_cm ≤ g.tumor_size_cm)
    (hnodes : f.lymph_nodes_involved ≤ g.lymph_nodes_involved) :
    tRank (stageBreastCancer f).T ≤ tRank (stageBreastCancer g).T ∧
    tRank (stageLungCancer f).T ≤ tRank (stageLungCancer g).T ∧
    tRank (stageHeadNeckCancer f).T ≤ tRank (stageHeadNeckCancer g).T ∧
    (stageBreastCancer f).T =
      (if f.tumor_size_cm ≤ 2 then "T1"
       else if f.tumor_size_cm ≤ 5 then "T2" else "T3") ∧
    nRank (stageGallbladderCancer f).N ≤ nRank (stageGallbladderCancer g).N ∧
    nRank (stageEsophagealCancer f).N ≤ nRank (stageEsophagealCancer g).N ∧
    nRank (stageBreastCancer f).N ≤ nRank (stageBreastCancer g).N ∧
    nRank (stageLungCancer f).N ≤ nRank (stageLungCancer g).N ∧
    nRank (stageColorectalCancer f).N ≤ nRank (stageColorectalCancer g).N ∧
    nRank (stageHeadNeckCancer f).N ≤ nRank (stageHeadNeckCancer g).N ∧
    ((stageGallbladderCancer f).N = "N0" ↔ f.lymph_nodes_involved = 0) ∧
    ((stageEsophagealCancer f).N = "N0" ↔ f.lymph_nodes_involved = 0) ∧
    ((stageBreastCancer f).N = "N0" ↔ f.lymph_nodes_involved = 0) ∧
    ((stageLungCancer f).N = "N0" ↔ f.lymph_nodes_involved = 0) ∧
    ((stageColorectalCancer f).N = "N0" ↔ f.lymph_nodes_involved = 0) ∧
    ((stageHeadNeckCancer f).N = "N0" ↔ f.lymph_nodes_involved = 0) := by
  refine ⟨?_, ?_, ?_, breast_T_eq f, ?_, ?_, ?_, ?_, ?_, ?_, ?_, ?_, ?_, ?_, ?_, ?_⟩
  · simp only [breast_T_eq]
    split_ifs <;> first | decide | (exfalso; linarith)
  · simp only [lung_T_eq]
    split_ifs <;> first | decide | (exfalso; linarith)
  · simp only [headneck_T_eq]
    split_ifs <;> first | decide | (exfalso; linarith)
  · simp only [gallbladder_N_eq]
    split_ifs <;> first | decide | (exfalso; omega)
  · simp only [esophageal_N_eq]
    split_ifs <;> first | decide | (exfalso; omega)
  · simp only [breast_N_eq]
    split_ifs <;> first | decide | (exfalso; omega)
  · simp only [lung_N_eq]
    split_ifs <;> first | decide | (exfalso; omega)
  · simp only [colorectal_N_eq]
    split_ifs <;> first | decide | (exfalso; omega)
  · simp only [headneck_N_eq]
    split_ifs <;> first | decide | (exfalso; omega)
  · simp only [gallbladder_N_eq]; split_ifs <;> simp_all
  · simp only [esophageal_N_eq]; split_ifs <;> simp_all
  · simp only [breast_N_eq]; split_ifs <;> simp_all
  · simp only [lung_N_eq]; split_ifs <;> simp_all
  · simp only [colorectal_N_eq]; split_ifs <;> simp_all
  · simp only [headneck_N_eq]; split_ifs <;> simp_all

/-- C5 witness: monotonicity applied to a 3 cm / 2 node record against a
6 cm / 4 node record. -/
theorem c5_threshold_monotone_witness :
    tRank (stageBreastCancer sampleFeatures).T ≤
      tRank (stageBreastCancer sampleFeaturesBig).T :=
  (c5_threshold_monotone sampleFeatures sampleFeaturesBig
    (by norm_num [sampleFeatures, sampleFeaturesBig])
    (by norm_num [sampleFeatures, sampleFeaturesBig])).1

/-- A two-page PDF whose text layer is too short for direct extraction. -/
def samplePdfDoc : PdfDoc := ⟨[["short", "text"], ["page two"]]⟩

/-- A sample OCR outcome for the rendered first page. -/
def sampleOcr : OcrOut := ⟨"ocr text", 4/5⟩

/-- C6: `processPDF` uses the concatenated text layer with method
`standard_extraction` and confidence 0.95 when more than 100 trimmed
characters survive, falls back to first-page OCR (method `pdf_ocr`, OCR
confidence) otherwise, and always reports the PDF's page count. -/
theorem c6_processPDF_fallback (doc : PdfDoc) (ocr : OcrOut) :
    (processPDF doc ocr).pageCount = doc.pages.length ∧
    ((trimStr (pdfJoined doc)).length > 100 →
      processPDF doc ocr =
        ⟨trimStr (pdfJoined doc), 0.95, "standard_extraction", doc.pages.length⟩) ∧
    ((trimStr (pdfJoined doc)).length ≤ 100 →
      processPDF doc ocr =
        ⟨ocr.text, ocr.confidence, "pdf_ocr", doc.pages.length⟩) := by
  refine ⟨?_, ?_, ?_⟩
  · by_cases h : (trimStr (pdfJoined doc)).length > 100 <;> simp [processPDF, h]
  · intro h; simp [processPDF, h]
  · intro h
    have h' : ¬ (trimStr (pdfJoined doc)).length > 100 := by omega
    simp [processPDF, h']

/-- C6 witness: the short two-page sample falls back to OCR. -/
theorem c6_processPDF_fallback_witness :
    processPDF samplePdfDoc sampleOcr =
      ⟨sampleOcr.text, sampleOcr.confidence, "pdf_ocr", samplePdfDoc.pages.length⟩ :=
  (c6_processPDF_fallback samplePdfDoc sampleOcr).2.2 (by decide)

/-- C7: the processing pipeline defines exactly the five steps with ids 1
to 5, and during a run the `current_step` trace only advances through
1, 2, 3, 4, 5: adjacent values never decrease and no value exceeds 5,
whichever update the run reaches before finishing or throwing. -/
theorem c7_linear_steps (k : ℕ) :
    processingSteps.map StepData.id = [1, 2, 3, 4, 5] ∧
    List.Chain' (· ≤ ·) (runTrace k) ∧
    (∀ x ∈ runTrace k, x ≤ 5) := by
  refine ⟨rfl, ?_⟩
  rcases k with _ | _ | _ | _ | _ | m
  · exact ⟨by simp [runTrace, stepUpdates, List.chain'_cons],
      by simp [runTrace, stepUpdates]⟩
  · exact ⟨by simp [runTrace, stepUpdates, List.chain'_cons],
      by simp [runTrace, stepUpdates, List.take_succ_cons]⟩
  · exact ⟨by simp [runTrace, stepUpdates, List.chain'_cons, List.take_succ_cons],
      by simp [runTrace, stepUpdates, List.take_succ_cons]⟩
  · exact ⟨by simp [runTrace, stepUpdates, List.chain'_cons, List.take_succ_cons],
      by simp [runTrace, stepUpdates, List.take_succ_cons]⟩
  · exact ⟨by simp [runTrace, stepUpdates, List.chain'_cons, List.take_succ_cons],
      by simp [runTrace, stepUpdates, List.take_succ_cons]⟩
  · have ht : stepUpdates.take (m + 5) = stepUpdates := by
      simp [stepUpdates]
    constructor
    · simp [runTrace, ht, stepUpdates, List.chain'_cons]
    · simp [runTrace, ht, stepUpdates]

/-- C7 witness: the step reached after two updates is within the bound. -/
theorem c7_linear_steps_witness : (3 : ℕ) ≤ 5 :=
  (c7_linear_steps 2).2.2 3 (by decide)

/-- C8: for every supported cancer type the M component is `M1` exactly
when `distant_metastasis` is set, and with distant metastasis the overall
stage is the type's metastatic stage (`Stage IVB` for gallbladder and
esophageal, `Stage IV` for breast, lung and colorectal, `Stage IVC` for
head and neck) regardless of the remaining features. -/
theorem c8_metastasis_dominates (f : MedicalFeatures) :
    ((stageGallbladderCancer f).M = "M1" ↔ f.distant_metastasis = true) ∧
    ((stageEsophagealCancer f).M = "M1" ↔ f.distant_metastasis = true) ∧
    ((stageBreastCancer f).M = "M1" ↔ f.distant_metastasis = true) ∧
    ((stageLungCancer f).M = "M1" ↔ f.distant_metastasis = true) ∧
    ((stageColorectalCancer f).M = "M1" ↔ f.distant_metastasis = true) ∧
    ((stageHeadNeckCancer f).M = "M1" ↔ f.distant_metastasis = true) ∧
    (f.distant_metastasis = true →
      (stageGallbladderCancer f).stage = "Stage IVB" ∧
      (stageEsophagealCancer f).stage = "Stage IVB" ∧
      (stageBreastCancer f).stage = "Stage IV" ∧
      (stageLungCancer f).stage = "Stage IV" ∧
      (stageColorectalCancer f).stage = "Stage IV" ∧
      (stageHeadNeckCancer f).stage = "Stage IVC") := by
  cases hm : f.distant_metastasis <;>
    simp [stageGallbladderCancer, stageEsophagealCancer, stageBreastCancer,
      stageLungCancer, stageColorectalCancer, stageHeadNeckCancer, hm]

/-- C8 witness: a metastatic record receives the metastatic stages. -/
theorem c8_metastasis_dominates_witness :
    (stageGallbladderCancer sampleFeaturesMet).stage = "Stage IVB" ∧
    (stageEsophagealCancer sampleFeaturesMet).stage = "Stage IVB" ∧
    (stageBreastCancer sampleFeaturesMet).stage = "Stage IV" ∧
    (stageLungCancer sampleFeaturesMet).stage = "Stage IV" ∧
    (stageColorectalCancer sampleFeaturesMet).stage = "Stage IV" ∧
    (stageHeadNeckCancer sampleFeaturesMet).stage = "Stage IVC" :=
  (c8_metastasis_dominates sampleFeaturesMet).2.2.2.2.2.2 rfl

/-- C9: the decision tables are not total: every non-metastatic breast
record with `2 < size ≤ 5` and no involved nodes, and every non-metastatic
gallbladder record with zero size, no liver invasion and no involved
nodes, is assigned `Stage Unknown`. -/
theorem c9_stage_unknown_gaps (f : MedicalFeatures) :
    (2 < f.tumor_size_cm → f.tumor_size_cm ≤ 5 → f.lymph_nodes_involved = 0 →
      f.distant_metastasis = false →
      (stageBreastCancer f).stage = "Stage Unknown") ∧
    (f.tumor_size_cm = 0 → f.liver_invasion = false → f.lymph_nodes_involved = 0 →
      f.distant_metastasis = false →
      (stageGallbladderCancer f).stage = "Stage Unknown") := by
  constructor
  · intro h1 h2 h3 h4
    have h1' : ¬ f.tumor_size_cm ≤ 2 := not_le.mpr h1
    simp [stageBreastCancer, h1', h2, h3, h4]
  · intro h1 h2 h3 h4
    norm_num [stageGallbladderCancer, h1, h2, h3, h4]
    decide

/-- C9 witness: the 3 cm node-negative non-metastatic breast record from
the claim's gap region is staged `Stage Unknown`. -/
theorem c9_stage_unknown_gaps_witness :
    (stageBreastCancer
      ⟨"breast", 3, 0, false, false, "", ⟨0, 0, 0, 0, 0, 0⟩, ()⟩).stage =
      "Stage Unknown" :=
  (c9_stage_unknown_gaps ⟨"breast", 3, 0, false, false, "", ⟨0, 0, 0, 0, 0, 0⟩, ()⟩).1
    (by norm_num) (by norm_num) rfl rfl

/-- C10: the stage-group cascade of `getTreatmentGuidelines` sends every
stage string containing `I` but not `V` to group `I`, so `Stage II` and
`Stage III` both receive the group-I treatment text for every cancer type
in the table, and the group-II and group-III entries are never returned
for those inputs. -/
theorem c10_treatment_group_shadowing (stage : String) :
    (containsStr stage "I" = true → containsStr stage "V" = false →
      stageGroupOf stage = "I") ∧
    (getTreatmentGuidelines "gallbladder" "Stage II" = (treatmentFor "gallbladder" "I").getD "" ∧
     getTreatmentGuidelines "gallbladder" "Stage III" = (treatmentFor "gallbladder" "I").getD "" ∧
     getTreatmentGuidelines "gallbladder" "Stage II" ≠ (treatmentFor "gallbladder" "II").getD "" ∧
     getTreatmentGuidelines "gallbladder" "Stage III" ≠ (treatmentFor "gallbladder" "II").getD "" ∧
     getTreatmentGuidelines "gallbladder" "Stage II" ≠ (treatmentFor "gallbladder" "III").getD "" ∧
     getTreatmentGuidelines "gallbladder" "Stage III" ≠ (treatmentFor "gallbladder" "III").getD "") ∧
    (getTreatmentGuidelines "esophageal" "Stage II" = (treatmentFor "esophageal" "I").getD "" ∧
     getTreatmentGuidelines "esophageal" "Stage III" = (treatmentFor "esophageal" "I").getD "" ∧
     getTreatmentGuidelines "esophageal" "Stage II" ≠ (treatmentFor "esophageal" "II").getD "" ∧
     getTreatmentGuidelines "esophageal" "Stage III" ≠ (treatmentFor "esophageal" "II").getD "" ∧
     getTreatmentGuidelines "esophageal" "Stage II" ≠ (treatmentFor "esophageal" "III").getD "" ∧
     getTreatmentGuidelines "esophageal" "Stage III" ≠ (treatmentFor "esophageal" "III").getD "") ∧
    (getTreatmentGuidelines "breast" "Stage II" = (treatmentFor "breast" "I").getD "" ∧
     getTreatmentGuidelines "breast" "Stage III" = (treatmentFor "breast" "I").getD "" ∧
     getTreatmentGuidelines "breast" "Stage II" ≠ (treatmentFor "breast" "II").getD "" ∧
     getTreatmentGuidelines "breast" "Stage III" ≠ (treatmentFor "breast" "II").getD "" ∧
     getTreatmentGuidelines "breast" "Stage II" ≠ (treatmentFor "breast" "III").getD "" ∧
     getTreatmentGuidelines "breast" "Stage III" ≠ (treatmentFor "breast" "III").getD "") ∧
    (getTreatmentGuidelines "lung" "Stage II" = (treatmentFor "lung" "I").getD "" ∧
     getTreatmentGuidelines "lung" "Stage III" = (treatmentFor "lung" "I").getD "" ∧
     getTreatmentGuidelines "lung" "Stage II" ≠ (treatmentFor "lung" "II").getD "" ∧
     getTreatmentGuidelines "lung" "Stage III" ≠ (treatmentFor "lung" "II").getD "" ∧
     getTreatmentGuidelines "lung" "Stage II" ≠ (treatmentFor "lung" "III").getD "" ∧
     getTreatmentGuidelines "lung" "Stage III" ≠ (treatmentFor "lung" "III").getD "") ∧
    (getTreatmentGuidelines "colorectal" "Stage II" = (treatmentFor "colorectal" "I").getD "" ∧
     getTreatmentGuidelines "colorectal" "Stage III" = (treatmentFor "colorectal" "I").getD "" ∧
     getTreatmentGuidelines "colorectal" "Stage II" ≠ (treatmentFor "colorectal" "II").getD "" ∧
     getTreatmentGuidelines "colorectal" "Stage III" ≠ (treatmentFor "colorectal" "II").getD "" ∧
     getTreatmentGuidelines "colorectal" "Stage II" ≠ (treatmentFor "colorectal" "III").getD "" ∧
     getTreatmentGuidelines "colorectal" "Stage III" ≠ (treatmentFor "colorectal" "III").getD "") ∧
    (getTreatmentGuidelines "head and neck" "Stage II" = (treatmentFor "head and neck" "I").getD "" ∧
     getTreatmentGuidelines "head and neck" "Stage III" = (treatmentFor "head and neck" "I").getD "" ∧
     getTreatmentGuidelines "head and neck" "Stage II" ≠ (treatmentFor "head and neck" "II").getD "" ∧
     getTreatmentGuidelines "head and neck" "Stage III" ≠ (treatmentFor "head and neck" "II").getD "" ∧
     getTreatmentGuidelines "head and neck" "Stage II" ≠ (treatmentFor "head and neck" "III").getD "" ∧
     getTreatmentGuidelines "head and neck" "Stage III" ≠ (treatmentFor "head and neck" "III").getD "") := by
  refine ⟨?_, by decide, by decide, by decide, by decide, by decide, by decide⟩
  intro h1 h2
  simp [stageGroupOf, h1, h2]

/-- C10 witness: `Stage II` itself lands in group `I`. -/
theorem c10_treatment_group_shadowing_witness : stageGroupOf "Stage II" = "I" :=
  (c10_treatment_group_shadowing "Stage II").1 (by decide) (by decide)
